import Mathlib

/-!
Verification of `load_csv` (src/src/data_loader.py) against its specification.

The loader normalizes a heterogeneous `source` (pandas DataFrame, `str`,
`bytes`, or `os.PathLike` path) into a DataFrame:

  * a DataFrame input is returned as `source.copy()` (lines 9-10);
  * a value that is not a DataFrame and not `str`/`bytes`/`PathLike`
    raises `TypeError` with the runtime type in the message (lines 13-14);
  * a path that does not exist raises `FileNotFoundError` naming the
    path (lines 17-18);
  * otherwise the file is parsed with `pandas.read_csv` (line 21).

The embedding models Python values, the filesystem, and the externally
observable behaviour (result or raised error, plus the list of filesystem
operations performed).  Cell values are integers or text; pandas column
type inference is modelled as: a column whose entries all parse as
integers becomes an integer column, otherwise a text column.
-/

/-- A cell value of a DataFrame: an integer or a piece of text
(the two inferred column types exercised by the specification). -/
inductive Value where
  | int (n : Int)
  | str (s : String)
deriving DecidableEq, Repr

/-- An in-memory pandas DataFrame: named columns and ordered rows. -/
structure DataFrame where
  columns : List String
  rows : List (List Value)
deriving DecidableEq, Repr

/-- A filesystem entry: a regular file with text contents, or a directory. -/
inductive FsEntry where
  | file (contents : String)
  | dir
deriving DecidableEq, Repr

/-- The filesystem state: a finite association of paths to entries. -/
abbrev FS : Type := List (String × FsEntry)

/-- The entry at path `p`, if any (`Path(p).exists()` is `(lookup fs p).isSome`). -/
def FS.lookup (fs : FS) (p : String) : Option FsEntry :=
  match fs with
  | [] => none
  | (q, e) :: rest => if q = p then some e else FS.lookup rest p

/-- A Python runtime value passed as `source` to `load_csv`.
`pyBytes p` is a byte sequence whose `os.fsdecode` is the path text `p`;
`pathObj p` is a `pathlib.Path` object for `p`; `pyOther n` is any other
object, carrying its type name (e.g. a custom class instance). -/
inductive Source where
  | dataframe (t : DataFrame)
  | pyStr (p : String)
  | pyBytes (p : String)
  | pathObj (p : String)
  | pyInt (n : Int)
  | pyNone
  | pyList (len : Nat)
  | pyOther (tyName : String)
deriving DecidableEq, Repr

/-- The Python type name of a `source` value, as `type(source)` reports it. -/
def Source.pyTypeName : Source → String
  | .dataframe _ => "pandas.core.frame.DataFrame"
  | .pyStr _ => "str"
  | .pyBytes _ => "bytes"
  | .pathObj _ => "pathlib.PosixPath"
  | .pyInt _ => "int"
  | .pyNone => "NoneType"
  | .pyList _ => "list"
  | .pyOther n => n

/-- How an f-string renders `type(source)`: `<class 'int'>` etc. -/
def pyTypeRepr (s : Source) : String :=
  "<class '" ++ s.pyTypeName ++ "'>"

/-- `isinstance(source, (str, bytes, PathLike))` (line 13). -/
def Source.isPathlike : Source → Bool
  | .pyStr _ => true
  | .pyBytes _ => true
  | .pathObj _ => true
  | _ => false

/-- `isinstance(source, DataFrame)` (line 9). -/
def Source.isDataFrame : Source → Bool
  | .dataframe _ => true
  | _ => false

/-- The filesystem path a `pathlib.Path(source)` construction yields.
`pathlib.Path` accepts text strings and `PathLike` objects whose
`__fspath__` returns text; it rejects byte sequences (and everything
else) with a `TypeError`, hence `none` on `pyBytes`. -/
def Source.fsPath? : Source → Option String
  | .pyStr p => some p
  | .pathObj p => some p
  | _ => none

/-- An exception escaping `load_csv`, by Python class and message. -/
inductive PyError where
  | typeError (msg : String)
  | fileNotFound (msg : String)
  | osError (msg : String)
  | parserError (msg : String)
deriving DecidableEq, Repr

/-- A filesystem operation performed during a call. -/
inductive FsOp where
  | existsCheck (p : String)
  | readEntry (p : String)
deriving DecidableEq, Repr

/-- The message of the `TypeError` raised on line 14:
`f"source must be a file path or a pandas dataframe: {type(source)}"`. -/
def invalidSourceMsg (s : Source) : String :=
  "source must be a file path or a pandas dataframe: " ++ pyTypeRepr s

/-- The message of the `FileNotFoundError` raised on line 18:
`f"File {source} not found."`. -/
def fileNotFoundMsg (p : String) : String :=
  "File " ++ p ++ " not found."

/-- The `TypeError` message `pathlib` itself raises when `Path()` is
given a byte sequence. -/
def pathlibBytesMsg : String :=
  "argument should be a str or an os.PathLike object where __fspath__ returns a str, not <class 'bytes'>"

/-- The `IsADirectoryError` (an `OSError`) message `open()` raises when
the path names a directory. -/
def isADirectoryMsg (p : String) : String :=
  "[Errno 21] Is a directory: '" ++ p ++ "'"

/-- Split a character list at every occurrence of `sep` (the pieces do
not contain `sep`; `n` separators yield `n + 1` pieces). -/
def splitOnChar (sep : Char) : List Char → List (List Char)
  | [] => [[]]
  | c :: cs =>
    if c = sep then [] :: splitOnChar sep cs
    else
      match splitOnChar sep cs with
      | [] => [[c]]
      | h :: t => (c :: h) :: t

/-- Split a string at every occurrence of the character `sep`. -/
def splitField (sep : Char) (s : String) : List String :=
  (splitOnChar sep s.data).map String.mk

/-- The numeric value of a decimal digit character, if it is one. -/
def digitVal (c : Char) : Option Nat :=
  if '0' ≤ c ∧ c ≤ '9' then some (c.toNat - 48) else none

/-- Accumulate decimal digits into a number; `none` on a non-digit. -/
def digitsToNat : List Char → Nat → Option Nat
  | [], acc => some acc
  | c :: cs, acc =>
    match digitVal c with
    | some d => digitsToNat cs (10 * acc + d)
    | none => none

/-- Parse a non-empty run of decimal digits. -/
def parseNat? : List Char → Option Nat
  | [] => none
  | l => digitsToNat l 0

/-- Parse an optionally negated decimal integer. -/
def parseInt? : List Char → Option Int
  | '-' :: rest => (parseNat? rest).map (fun n => -(n : Int))
  | l => (parseNat? l).map (fun n => (n : Int))

/-- Whether a cell's text reads as an integer (e.g. `1`, `-20`). -/
def strToInt? (s : String) : Option Int :=
  parseInt? s.data

/-- The physical lines of a CSV file, with blank lines skipped
(pandas default `skip_blank_lines=True`; a trailing newline therefore
contributes no row). -/
def csvLines (contents : String) : List String :=
  (splitField (Char.ofNat 10) contents).filter (fun l => decide (l ≠ ""))

/-- Whether every raw entry of column `j` parses as an integer
(pandas type inference: an all-numeric column becomes numeric). -/
def colIsNumeric (raw : List (List String)) (j : Nat) : Bool :=
  raw.all (fun r => (strToInt? (r.getD j "")).isSome)

/-- Convert the raw string cells to typed values, column by column. -/
def convertTable (raw : List (List String)) : List (List Value) :=
  raw.map (fun r => r.mapIdx (fun j s =>
    if colIsNumeric raw j then
      match strToInt? s with
      | some n => Value.int n
      | none => Value.str s
    else Value.str s))

/-- Modelled from the spec: `pandas.read_csv` (the external parsing
library invoked on line 21, not part of this repository), per section 4.1
step 4 — comma-delimited, first line supplies the column names and is
never treated as data, all-numeric columns become numeric.  Reading a
directory fails with `IsADirectoryError` from `open()`; an empty file
fails with `EmptyDataError`; a data line with a field count different
from the header fails with a tokenizing `ParserError`. -/
def parseCSV (c : String) : Except PyError DataFrame :=
  match csvLines c with
  | [] => Except.error (PyError.parserError "No columns to parse from file")
  | header :: rest =>
    if (rest.map (splitField ',')).all
        (fun r => decide (r.length = (splitField ',' header).length)) then
      Except.ok { columns := splitField ',' header,
                  rows := convertTable (rest.map (splitField ',')) }
    else
      Except.error (PyError.parserError "Error tokenizing data")

/-- Modelled from the spec: the dispatch of `pandas.read_csv` on the
entry found at the path — a missing entry fails like `open()`, a
directory raises `IsADirectoryError`, a regular file is parsed. -/
def read_csv (fs : FS) (p : String) : Except PyError DataFrame :=
  match FS.lookup fs p with
  | none => Except.error (PyError.fileNotFound ("[Errno 2] No such file or directory: '" ++ p ++ "'"))
  | some FsEntry.dir => Except.error (PyError.osError (isADirectoryMsg p))
  | some (FsEntry.file c) => parseCSV c

/-- `source.copy()` on a DataFrame: a fresh object holding the same
columns, rows and values (pandas `copy` defaults to a deep copy). -/
def dfCopy (t : DataFrame) : DataFrame :=
  { columns := t.columns, rows := t.rows }

/-- Embedding of `load_csv` (src/src/data_loader.py lines 7-21),
instrumented with the list of filesystem operations the call performs.

Control flow, in the order of the source:
  * lines 9-10: `if isinstance(source, DataFrame): return source.copy()`
    — no filesystem operation;
  * lines 13-14: `if not isinstance(source, (str, bytes, PathLike)):
    raise TypeError(...)` — no filesystem operation;
  * lines 17-18: `if not Path(source).exists(): raise
    FileNotFoundError(...)`.  Constructing `Path(source)` from a byte
    sequence raises `TypeError` inside `pathlib` before any filesystem
    access; otherwise the existence check is one filesystem operation;
  * line 21: `return read_csv(source)` — reads the entry at the path. -/
def load_csvT (fs : FS) (source : Source) : Except PyError DataFrame × List FsOp :=
  match source with
  | Source.dataframe t => (Except.ok (dfCopy t), [])
  | _ =>
    if source.isPathlike = false then
      (Except.error (PyError.typeError (invalidSourceMsg source)), [])
    else
      match source.fsPath? with
      | none => (Except.error (PyError.typeError pathlibBytesMsg), [])
      | some p =>
        if (FS.lookup fs p).isSome = false then
          (Except.error (PyError.fileNotFound (fileNotFoundMsg p)), [FsOp.existsCheck p])
        else
          (read_csv fs p, [FsOp.existsCheck p, FsOp.readEntry p])

/-- `load_csv`: the value returned or error raised, forgetting the trace. -/
def load_csv (fs : FS) (source : Source) : Except PyError DataFrame :=
  (load_csvT fs source).1

/-- A heap of DataFrame objects, to state object-identity properties:
an index is a Python object reference, `List.get?` reads an object and
`List.set` mutates it in place. -/
abbrev Heap : Type := List DataFrame

/-- The DataFrame branch of `load_csv` at the object level: given a heap
and a reference to the input DataFrame, allocate `source.copy()` as a new
object and return its reference. -/
def load_df_heap (h : Heap) (r : Nat) : Heap × Nat :=
  match h[r]? with
  | some t => (h ++ [dfCopy t], h.length)
  | none => (h, r)

/-- `source.copy()` is value-equal to the original DataFrame. -/
theorem dfCopy_eq (t : DataFrame) : dfCopy t = t := rfl

/-- The example CSV contents of spec section 8, property 4. -/
def exampleCSV : String := "id,name\n1,alice\n2,bob\n"

/-- A filesystem holding the example CSV at `file.csv`. -/
def exampleFS : FS := [("file.csv", FsEntry.file exampleCSV)]

/-- The DataFrame the example CSV parses to. -/
def exampleDF : DataFrame :=
  { columns := ["id", "name"],
    rows := [[Value.int 1, Value.str "alice"], [Value.int 2, Value.str "bob"]] }

/-- The column names a CSV text supplies: its first line, split on commas. -/
def headerFields (c : String) : List String :=
  splitField ',' ((csvLines c).headD "")

/-- The data lines of a CSV text: every non-blank line after the first. -/
def dataLines (c : String) : List String :=
  (csvLines c).tail

theorem convertTable_length (raw : List (List String)) :
    (convertTable raw).length = raw.length := by
  simp [convertTable]

theorem load_csvT_pyStr (fs : FS) (p : String) :
    load_csvT fs (Source.pyStr p) =
      if (FS.lookup fs p).isSome = false then
        (Except.error (PyError.fileNotFound (fileNotFoundMsg p)), [FsOp.existsCheck p])
      else (read_csv fs p, [FsOp.existsCheck p, FsOp.readEntry p]) := rfl

theorem load_csvT_pathObj (fs : FS) (p : String) :
    load_csvT fs (Source.pathObj p) =
      if (FS.lookup fs p).isSome = false then
        (Except.error (PyError.fileNotFound (fileNotFoundMsg p)), [FsOp.existsCheck p])
      else (read_csv fs p, [FsOp.existsCheck p, FsOp.readEntry p]) := rfl

theorem parseCSV_ok_shape (c : String) (d : DataFrame) (hok : parseCSV c = Except.ok d) :
    d.columns = headerFields c ∧ d.rows.length = (dataLines c).length := by
  unfold parseCSV at hok
  split at hok
  · exact Except.noConfusion hok
  · rename_i header rest hcl
    split at hok
    · obtain rfl := Except.ok.inj hok
      refine ⟨?_, ?_⟩
      · simp [headerFields, hcl]
      · simp [dataLines, hcl, convertTable_length]
    · exact Except.noConfusion hok

theorem parseCSV_error_kind (c : String) (e : PyError) (herr : parseCSV c = Except.error e) :
    ∃ m, e = PyError.parserError m := by
  unfold parseCSV at herr
  split at herr
  · exact ⟨_, (Except.error.inj herr).symm⟩
  · split at herr
    · exact Except.noConfusion herr
    · exact ⟨_, (Except.error.inj herr).symm⟩

theorem read_csv_file (fs : FS) (p c : String)
    (hfile : FS.lookup fs p = some (FsEntry.file c)) :
    read_csv fs p = parseCSV c := by
  unfold read_csv; rw [hfile]

theorem read_csv_error_kind (fs : FS) (p : String) (e : PyError)
    (hex : (FS.lookup fs p).isSome = true)
    (herr : read_csv fs p = Except.error e) :
    (∃ m, e = PyError.osError m) ∨ (∃ m, e = PyError.parserError m) := by
  unfold read_csv at herr
  cases hfs : FS.lookup fs p with
  | none => rw [hfs] at hex; exact Bool.noConfusion hex
  | some entry =>
    rw [hfs] at herr
    cases entry with
    | dir => exact Or.inl ⟨isADirectoryMsg p, (Except.error.inj herr).symm⟩
    | file c => exact Or.inr (parseCSV_error_kind c e herr)

theorem read_csv_congr (fs1 fs2 : FS) (p : String)
    (h : FS.lookup fs1 p = FS.lookup fs2 p) :
    read_csv fs1 p = read_csv fs2 p := by
  unfold read_csv; rw [h]

/-- C1: for every DataFrame input `t`, `load_csv(t)` returns a DataFrame
structurally equal to `t` (same columns, rows and values) but a distinct
object: at the object level the copy is a fresh reference, and mutating
either object leaves the other unchanged. -/
theorem load_dataframe_deep_copy (fs : FS) (h : Heap) (r : Nat) (t : DataFrame)
    (hr : h[r]? = some t) :
    load_csv fs (Source.dataframe t) = Except.ok t ∧
    (load_df_heap h r).2 ≠ r ∧
    ((load_df_heap h r).1)[(load_df_heap h r).2]? = some t ∧
    ((load_df_heap h r).1)[r]? = some t ∧
    (∀ u : DataFrame, ((load_df_heap h r).1.set (load_df_heap h r).2 u)[r]? = some t) ∧
    (∀ u : DataFrame, ((load_df_heap h r).1.set r u)[(load_df_heap h r).2]? = some t) := by
  have hlt : r < h.length := by
    by_contra hge
    rw [List.getElem?_eq_none (Nat.le_of_not_lt hge)] at hr
    exact Option.noConfusion hr
  have hld : load_df_heap h r = (h ++ [t], h.length) := by
    unfold load_df_heap; rw [hr]; rfl
  rw [hld]
  refine ⟨rfl, Nat.ne_of_gt hlt, ?_, ?_, ?_, ?_⟩
  · exact List.getElem?_concat_length h t
  · rw [List.getElem?_append_left hlt]; exact hr
  · intro u
    rw [List.getElem?_set_ne (Nat.ne_of_gt hlt), List.getElem?_append_left hlt]
    exact hr
  · intro u
    rw [List.getElem?_set_ne (Nat.ne_of_lt hlt)]
    exact List.getElem?_concat_length h t

/-- An input DataFrame object for the deep-copy witness. -/
def witnessDF : DataFrame := { columns := ["a"], rows := [[Value.int 3]] }

/-- A different DataFrame, written into one object to mutate it. -/
def witnessDF2 : DataFrame := { columns := ["b"], rows := [] }

theorem load_dataframe_deep_copy_witness :
    load_csv [] (Source.dataframe witnessDF) = Except.ok witnessDF ∧
    (load_df_heap [witnessDF] 0).2 ≠ 0 ∧
    ((load_df_heap [witnessDF] 0).1)[(load_df_heap [witnessDF] 0).2]? = some witnessDF ∧
    ((load_df_heap [witnessDF] 0).1.set (load_df_heap [witnessDF] 0).2 witnessDF2)[0]? =
      some witnessDF ∧
    ((load_df_heap [witnessDF] 0).1.set 0 witnessDF2)[(load_df_heap [witnessDF] 0).2]? =
      some witnessDF :=
  have H := load_dataframe_deep_copy [] [witnessDF] 0 witnessDF rfl
  ⟨H.1, H.2.1, H.2.2.1, H.2.2.2.2.1 witnessDF2, H.2.2.2.2.2 witnessDF2⟩

/-- C2: for every input that is neither a DataFrame nor a
string/bytes/path-like value, `load_csv` raises `TypeError`, and the
message includes the runtime type of the input. -/
theorem load_invalid_type_error (fs : FS) (s : Source)
    (hdf : s.isDataFrame = false) (hpl : s.isPathlike = false) :
    load_csvT fs s = (Except.error (PyError.typeError (invalidSourceMsg s)), []) ∧
    ∃ a b : String, invalidSourceMsg s = a ++ (s.pyTypeName ++ b) := by
  constructor
  · cases s <;> first
      | rfl
      | simp [Source.isDataFrame, Source.isPathlike] at hdf hpl
  · refine ⟨"source must be a file path or a pandas dataframe: <class '", "'>", ?_⟩
    unfold invalidSourceMsg pyTypeRepr
    rw [String.append_assoc, ← String.append_assoc]
    congr 1

theorem load_invalid_type_error_witness :
    load_csvT [] (Source.pyInt 5) =
      (Except.error (PyError.typeError (invalidSourceMsg (Source.pyInt 5))), []) ∧
    ∃ a b : String,
      invalidSourceMsg (Source.pyInt 5) = a ++ ((Source.pyInt 5).pyTypeName ++ b) :=
  load_invalid_type_error [] (Source.pyInt 5) rfl rfl

/-- C3: for every string or path-object input naming a path with no
filesystem entry, `load_csv` raises `FileNotFoundError` after one
existence check, and the message includes the path. -/
theorem load_missing_path_error (fs : FS) (p : String) (s : Source)
    (hs : s = Source.pyStr p ∨ s = Source.pathObj p)
    (hmiss : FS.lookup fs p = none) :
    load_csvT fs s =
      (Except.error (PyError.fileNotFound (fileNotFoundMsg p)), [FsOp.existsCheck p]) ∧
    ∃ a b : String, fileNotFoundMsg p = a ++ (p ++ b) := by
  constructor
  · rcases hs with rfl | rfl
    · rw [load_csvT_pyStr, hmiss]; rfl
    · rw [load_csvT_pathObj, hmiss]; rfl
  · exact ⟨"File ", " not found.", by simp [fileNotFoundMsg, String.append_assoc]⟩

theorem load_missing_path_error_witness :
    load_csvT [] (Source.pyStr "/tmp/does-not-exist-12345.csv") =
      (Except.error (PyError.fileNotFound (fileNotFoundMsg "/tmp/does-not-exist-12345.csv")),
       [FsOp.existsCheck "/tmp/does-not-exist-12345.csv"]) ∧
    ∃ a b : String,
      fileNotFoundMsg "/tmp/does-not-exist-12345.csv" =
        a ++ ("/tmp/does-not-exist-12345.csv" ++ b) :=
  load_missing_path_error [] "/tmp/does-not-exist-12345.csv"
    (Source.pyStr "/tmp/does-not-exist-12345.csv") (Or.inl rfl) rfl

/-- C4: for every existing well-formed CSV file, the result has one
column per header field and one row per data line (the header line is
never a data row); on the concrete file `id,name` / `1,alice` / `2,bob`
the result is columns `["id","name"]`, row 0 `(1, "alice")` and
row 1 `(2, "bob")`. -/
theorem load_csv_header_and_rows :
    (∀ (fs : FS) (p c : String) (d : DataFrame),
        FS.lookup fs p = some (FsEntry.file c) →
        load_csv fs (Source.pyStr p) = Except.ok d →
        d.columns = headerFields c ∧ d.rows.length = (dataLines c).length) ∧
    load_csv exampleFS (Source.pyStr "file.csv") = Except.ok exampleDF := by
  constructor
  · intro fs p c d hfile hok
    have hsome : (FS.lookup fs p).isSome = true := by rw [hfile]; rfl
    unfold load_csv at hok
    rw [load_csvT_pyStr, if_neg (by simp [hsome]), read_csv_file fs p c hfile] at hok
    exact parseCSV_ok_shape c d hok
  · rfl

theorem load_csv_header_and_rows_witness :
    exampleDF.columns = headerFields exampleCSV ∧
    exampleDF.rows.length = (dataLines exampleCSV).length :=
  load_csv_header_and_rows.1 exampleFS "file.csv" exampleCSV exampleDF rfl
    load_csv_header_and_rows.2

/-- C5: contrary to the claim, a byte-sequence path is rejected: it
passes the `isinstance(source, (str, bytes, PathLike))` check on line 13,
but `Path(source)` on line 17 raises `TypeError` inside `pathlib` before
any filesystem access, so the existence check never runs and no Table is
returned even when the file exists. -/
theorem load_bytes_raises_typeerror :
    (Source.pyBytes "file.csv").isPathlike = true ∧
    FS.lookup exampleFS "file.csv" = some (FsEntry.file exampleCSV) ∧
    load_csvT exampleFS (Source.pyBytes "file.csv") =
      (Except.error (PyError.typeError pathlibBytesMsg), []) ∧
    load_csv exampleFS (Source.pyStr "file.csv") = Except.ok exampleDF ∧
    load_csv exampleFS (Source.pyBytes "file.csv") ≠
      load_csv exampleFS (Source.pyStr "file.csv") := by
  refine ⟨rfl, rfl, rfl, rfl, ?_⟩
  intro h
  have h2 : (Except.error (PyError.typeError pathlibBytesMsg) : Except PyError DataFrame) =
      Except.ok exampleDF := h
  exact Except.noConfusion h2

/-- C6: a `pathlib.Path` object and the equal text path are
interchangeable: `load_csv` returns identical results (and performs the
same filesystem operations) on both, for every filesystem state. -/
theorem load_pathobj_str_equiv (fs : FS) (p : String) :
    load_csvT fs (Source.pathObj p) = load_csvT fs (Source.pyStr p) := rfl

/-- C7: a DataFrame input triggers no filesystem access: the call
performs no filesystem operation, and its outcome is independent of the
filesystem state. -/
theorem load_dataframe_no_fs_access (fs fs2 : FS) (t : DataFrame) :
    (load_csvT fs (Source.dataframe t)).2 = [] ∧
    load_csvT fs (Source.dataframe t) = load_csvT fs2 (Source.dataframe t) :=
  ⟨rfl, rfl⟩

/-- C8: once the type and existence checks pass, a failure from CSV
parsing propagates to the caller unmodified — the propagated error is
never re-raised as the loader's `TypeError` or `FileNotFoundError`. -/
theorem load_propagates_parse_errors (fs : FS) (p : String) (e : PyError)
    (hex : (FS.lookup fs p).isSome = true)
    (herr : read_csv fs p = Except.error e) :
    load_csv fs (Source.pyStr p) = Except.error e ∧
    (∀ m, e ≠ PyError.typeError m) ∧ (∀ m, e ≠ PyError.fileNotFound m) := by
  have hkind := read_csv_error_kind fs p e hex herr
  refine ⟨?_, ?_, ?_⟩
  · unfold load_csv
    rw [load_csvT_pyStr, if_neg (by simp [hex])]
    exact herr
  · rcases hkind with ⟨m, rfl⟩ | ⟨m, rfl⟩ <;> exact fun m2 h => PyError.noConfusion h
  · rcases hkind with ⟨m, rfl⟩ | ⟨m, rfl⟩ <;> exact fun m2 h => PyError.noConfusion h

/-- A filesystem whose `m.csv` has a data line with more fields than the
header — `read_csv` fails on it with a tokenizing error. -/
def malformedFS : FS := [("m.csv", FsEntry.file "a,b\n1,2,3")]

theorem load_propagates_parse_errors_witness :
    load_csv malformedFS (Source.pyStr "m.csv") =
      Except.error (PyError.parserError "Error tokenizing data") ∧
    (∀ m, PyError.parserError "Error tokenizing data" ≠ PyError.typeError m) :=
  have H := load_propagates_parse_errors malformedFS "m.csv"
    (PyError.parserError "Error tokenizing data") rfl rfl
  ⟨H.1, H.2.1⟩

/-- C9: `load_csv` is deterministic in the filesystem: two calls on the
same path against filesystem states agreeing at that path (in particular,
two calls against the same unchanged state) return equal results. -/
theorem load_csv_deterministic (fs1 fs2 : FS) (p : String)
    (hsame : FS.lookup fs1 p = FS.lookup fs2 p) :
    load_csv fs1 (Source.pyStr p) = load_csv fs2 (Source.pyStr p) := by
  unfold load_csv
  rw [load_csvT_pyStr, load_csvT_pyStr, read_csv_congr fs1 fs2 p hsame, hsame]

def determFSA : FS := [("a.csv", FsEntry.file "x\n1")]

def determFSB : FS := [("unrelated", FsEntry.dir), ("a.csv", FsEntry.file "x\n1")]

theorem load_csv_deterministic_witness :
    load_csv determFSA (Source.pyStr "a.csv") = load_csv determFSB (Source.pyStr "a.csv") :=
  load_csv_deterministic determFSA determFSB "a.csv" rfl

/-- C10: a path naming an existing directory passes the existence check
(which tests for any entry, not regular files), so `load_csv` does not
raise its `FileNotFoundError`; the call fails with the reader's own
`IsADirectoryError`, propagated from line 21. -/
theorem load_directory_no_notfound (fs : FS) (p : String)
    (hdir : FS.lookup fs p = some FsEntry.dir) :
    load_csv fs (Source.pyStr p) = read_csv fs p ∧
    load_csv fs (Source.pyStr p) = Except.error (PyError.osError (isADirectoryMsg p)) ∧
    ∀ m, load_csv fs (Source.pyStr p) ≠ Except.error (PyError.fileNotFound m) := by
  have hsome : (FS.lookup fs p).isSome = true := by rw [hdir]; rfl
  have hread : read_csv fs p = Except.error (PyError.osError (isADirectoryMsg p)) := by
    unfold read_csv; rw [hdir]
  have hload : load_csv fs (Source.pyStr p) = read_csv fs p := by
    unfold load_csv
    rw [load_csvT_pyStr, if_neg (by simp [hsome])]
  refine ⟨hload, hload.trans hread, ?_⟩
  intro m h
  rw [hload, hread] at h
  exact PyError.noConfusion (Except.error.inj h)

def dirOnlyFS : FS := [("data", FsEntry.dir)]

theorem load_directory_no_notfound_witness :
    load_csv dirOnlyFS (Source.pyStr "data") =
      Except.error (PyError.osError (isADirectoryMsg "data")) ∧
    load_csv dirOnlyFS (Source.pyStr "data") ≠
      Except.error (PyError.fileNotFound (fileNotFoundMsg "data")) :=
  have H := load_directory_no_notfound dirOnlyFS "data" rfl
  ⟨H.2.1, H.2.2 (fileNotFoundMsg "data")⟩
